import Mathlib

/-!
Formal model of the retail analytics dashboard pipeline (src/app.py).

The program is a single script: it loads and cleans a CSV of retail
transactions (`load_data`), applies sidebar filters (date range, country
multiselect) to obtain `filtered_df`, and computes KPI scalars and eight
aggregate tables feeding the charts.  Dataframes are modelled as lists of
rows; pandas group-by (with its default ascending key sort) is modelled by
`groupByD`; `sort_values(..., ascending=False)` is modelled by a stable
insertion sort on the measure; `nunique` is modelled by `dedup.length`.
Currency amounts are rationals, timestamps are a record of calendar
fields.

Pandas' `sort_values` default sort kind is an unstable quicksort, so the
program fixes no order among rows whose sort measure ties.  The
executable table definitions pick one admissible outcome (a stable
sort), while the guarantees the program actually gives about the sorted
top-N tables are stated against the relation `sort_values_nd`, which
admits every permutation that is non-increasing in the measure.
-/

namespace Retail

/-- Calendar timestamp carried by the InvoiceDate column after
`pd.to_datetime` succeeds. -/
structure Timestamp where
  year : Nat
  month : Nat
  day : Nat
  hourOfDay : Nat
deriving DecidableEq

/-- The `Date` derived column (`InvoiceDate.dt.date`): the calendar date
with time-of-day discarded, encoded so that the numeric order agrees with
chronological order. -/
def Timestamp.dateKey (t : Timestamp) : Nat :=
  t.year * 10000 + t.month * 100 + t.day

/-- The `YearMonth` derived column (`InvoiceDate.dt.to_period('M').astype(str)`):
a zero-padded sortable string key such as `2011-03`. -/
def Timestamp.yearMonth (t : Timestamp) : String :=
  toString t.year ++ "-" ++ (if t.month < 10 then "0" ++ toString t.month else toString t.month)

/-- One raw CSV record, with the schema of the input file.  `invoiceDate`
is `none` when the date string cannot be parsed by `pd.to_datetime`;
`description` and `customerID` are `none` when the cell is null. -/
structure RawRow where
  invoiceNo : String
  stockCode : String
  description : Option String
  quantity : Int
  unitPrice : Rat
  invoiceDate : Option Timestamp
  customerID : Option Nat
  country : String
deriving DecidableEq

/-- One row of the cleaned dataset produced by `load_data`: the raw
columns plus the four derived columns computed at lines 47-50 of
src/app.py. -/
structure Row where
  invoiceNo : String
  stockCode : String
  description : Option String
  quantity : Int
  unitPrice : Rat
  invoiceDate : Timestamp
  customerID : Option Nat
  country : String
  totalPrice : Rat
  yearMonth : String
  date : Nat
  hourOfDay : Nat
deriving DecidableEq

/-- Attach the derived columns to a parsed raw row:
`TotalPrice = Quantity * UnitPrice`, `YearMonth`, `Date`, `Hour`. -/
def mkRow (r : RawRow) (t : Timestamp) : Row :=
  { invoiceNo := r.invoiceNo
    stockCode := r.stockCode
    description := r.description
    quantity := r.quantity
    unitPrice := r.unitPrice
    invoiceDate := t
    customerID := r.customerID
    country := r.country
    totalPrice := (r.quantity : Rat) * r.unitPrice
    yearMonth := t.yearMonth
    date := t.dateKey
    hourOfDay := t.hourOfDay }

/-- Model of `pd.to_datetime(df['InvoiceDate'])` (line 41): parsing is
all-or-nothing — a single unparseable date makes the whole call raise,
modelled by `none`. -/
def parseAll : List RawRow → Option (List (RawRow × Timestamp))
  | [] => some []
  | r :: rs =>
    match r.invoiceDate, parseAll rs with
    | some t, some ps => some ((r, t) :: ps)
    | _, _ => none

/-- The cleaning steps of `load_data` (lines 42-50): keep rows with
`Quantity > 0`, then `UnitPrice > 0`, then non-null `Description`, then
attach the derived columns. -/
def clean (prs : List (RawRow × Timestamp)) : List Row :=
  ((((prs.filter (fun p => decide (0 < p.1.quantity))).filter
      (fun p => decide (0 < p.1.unitPrice))).filter
      (fun p => p.1.description.isSome)).map (fun p => mkRow p.1 p.2))

/-- State of one candidate CSV path on disk: absent, present but not
parseable by `pd.read_csv`, or parseable into records. -/
inductive FileData where
  | missing : FileData
  | bad : FileData
  | good : List RawRow → FileData
deriving DecidableEq

/-- The file system seen by `pd.read_csv`, as a map from paths to file
states. -/
def FS : Type := String → FileData

/-- Load failure taxonomy: the exception escaping `load_data` is either a
file-not-found error or a parse/encoding/date error. -/
inductive LoadError where
  | notFound : LoadError
  | malformed : LoadError
deriving DecidableEq

/-- Model of `pd.read_csv(path, encoding='ISO-8859-1')`: raises
not-found when the path is absent, a parse error when the file is
malformed. -/
def read_csv (fs : FS) (path : String) : Except LoadError (List RawRow) :=
  match fs path with
  | .missing => .error .notFound
  | .bad => .error .malformed
  | .good rows => .ok rows

/-- First candidate path (line 36 of src/app.py). -/
def dataCsv : String := "data/data.csv"

/-- Fallback candidate path (line 38 of src/app.py). -/
def retailCsv : String := "data/online_retail.csv"

/-- Date parsing and cleaning applied to the rows read from whichever
candidate file was used; a date-parse failure raises (lines 41-52). -/
def parse_clean (rows : List RawRow) : Except LoadError (List Row) :=
  match parseAll rows with
  | none => .error .malformed
  | some prs => .ok (clean prs)

/-- `load_data` (lines 34-52): try `data/data.csv`; on any read error
fall back to `data/online_retail.csv`; then parse dates and clean.  The
bare `except:` at line 37 catches every failure of the first read. -/
def load_data (fs : FS) : Except LoadError (List Row) :=
  match read_csv fs dataCsv with
  | .ok rows => parse_clean rows
  | .error _ =>
    match read_csv fs retailCsv with
    | .ok rows => parse_clean rows
    | .error e => .error e

/-- The sidebar filter selection: the date-range widget value (a list of
date keys; the widget may yield fewer or more than two entries) and the
country multiselect value. -/
structure Selection where
  dateRange : List Nat
  countries : List String
deriving DecidableEq

/-- Model of `df.copy()` (line 94): a fresh dataframe with the same
rows. -/
def copy (df : List Row) : List Row := df

/-- Lines 96-100: the date filter is applied only when the widget value
has exactly two entries; a row passes when `start <= Date <= end`. -/
def dateFilter (dr : List Nat) (df : List Row) : List Row :=
  match dr with
  | [s, e] => df.filter (fun r => decide (s ≤ r.date) && decide (r.date ≤ e))
  | _ => df

/-- Lines 102-103: the country filter is applied only when the selection
is non-empty (Python truthiness of the list); a row passes when its
country is in the selection. -/
def countryFilter (cs : List String) (df : List Row) : List Row :=
  match cs with
  | [] => df
  | _ => df.filter (fun r => cs.contains r.country)

/-- `filtered_df` (lines 94-103): copy the cleaned dataset, then apply
the date filter, then the country filter. -/
def filtered_df (sel : Selection) (df : List Row) : List Row :=
  countryFilter sel.countries (dateFilter sel.dateRange (copy df))

/-- Distinct values of a list in ascending order: models the index of a
pandas group-by (whose default is `sort=True`) and of
`value_counts().sort_index()`. -/
def keysAsc {K : Type} [LinearOrder K] [DecidableEq K] (ks : List K) : List K :=
  ks.dedup.insertionSort (fun a b => a ≤ b)

/-- Pandas group-by over a possibly-null key column (null keys dropped,
as with `groupby`'s default `dropna=True`), aggregating each group and
listing groups by ascending key. -/
def groupByD {K β : Type} [LinearOrder K] [DecidableEq K] (key : Row → Option K) (agg : List Row → β)
    (df : List Row) : List (K × β) :=
  (keysAsc (df.filterMap key)).map
    (fun k => (k, agg (df.filter (fun r => decide (key r = some k)))))

/-- Pandas group-by over a total key column. -/
def groupBy {K β : Type} [LinearOrder K] [DecidableEq K] (key : Row → K) (agg : List Row → β)
    (df : List Row) : List (K × β) :=
  groupByD (fun r => some (key r)) agg df

/-- Column sum of `TotalPrice` over a group. -/
def sumTotalPrice (rows : List Row) : Rat := (rows.map Row.totalPrice).sum

/-- Column sum of `Quantity` over a group. -/
def sumQuantity (rows : List Row) : Int := (rows.map Row.quantity).sum

/-- `InvoiceNo.nunique()`: the number of distinct invoice numbers. -/
def nuniqueInvoice (rows : List Row) : Nat := (rows.map Row.invoiceNo).dedup.length

/-- Descending order on a measure: `sort_values(measure, ascending=False)`,
modelled as a stable sort whose pass condition is that the inserted
element's measure is at least the current one's. -/
def measureDesc {α M : Type} [LE M] (m : α → M) (a b : α) : Prop := m b ≤ m a

instance {α M : Type} [LinearOrder M] (m : α → M) : DecidableRel (measureDesc m) :=
  fun a b => inferInstanceAs (Decidable (m b ≤ m a))

instance {α M : Type} [LinearOrder M] (m : α → M) : IsTotal α (measureDesc m) :=
  ⟨fun a b => le_total (m b) (m a)⟩

instance {α M : Type} [LinearOrder M] (m : α → M) : IsTrans α (measureDesc m) :=
  ⟨fun _ _ _ hab hbc => le_trans hbc hab⟩

/-- The contract of pandas `sort_values(by=measure, ascending=False)`
with its default sort kind, which is an unstable quicksort: the output
is some permutation of the input that is non-increasing in the measure;
the relative order of rows with equal measures is not specified.  Every
property the program guarantees about its sorted tables must hold for
every output admitted by this relation. -/
def sort_values_nd {α M : Type} [LE M] (m : α → M) (l out : List α) : Prop :=
  List.Perm out l ∧ out.Pairwise (fun a b => m b ≤ m a)

/-- KPI: `total_revenue = filtered_df['TotalPrice'].sum()` (line 125). -/
def total_revenue (view : List Row) : Rat := (view.map Row.totalPrice).sum

/-- KPI: `total_orders = filtered_df['InvoiceNo'].nunique()` (line 126). -/
def total_orders (view : List Row) : Nat := (view.map Row.invoiceNo).dedup.length

/-- KPI: `total_customers = filtered_df['CustomerID'].dropna().nunique()`
(line 127). -/
def total_customers (view : List Row) : Nat := (view.filterMap Row.customerID).dedup.length

/-- KPI: `avg_order_value = total_revenue / total_orders if total_orders > 0 else 0`
(line 128). -/
def avg_order_value (view : List Row) : Rat :=
  if 0 < total_orders view then total_revenue view / (total_orders view : Rat) else 0

/-- `monthly_revenue` (line 147): revenue by YearMonth. -/
def monthly_revenue (view : List Row) : List (String × Rat) :=
  groupBy Row.yearMonth sumTotalPrice view

/-- `monthly_orders` (line 167): distinct invoices by YearMonth. -/
def monthly_orders (view : List Row) : List (String × Nat) :=
  groupBy Row.yearMonth nuniqueInvoice view

/-- The grouped country table before sorting (lines 195-199): revenue and
distinct invoices by Country. -/
def country_agg (view : List Row) : List (String × Rat × Nat) :=
  groupBy Row.country (fun rows => (sumTotalPrice rows, nuniqueInvoice rows)) view

/-- `country_stats` (line 200): the country table sorted by revenue
descending, first 10 rows.  This executable model picks one particular
output admitted by `sort_values_nd` (the stable-sort outcome); the
guarantees the program actually gives about row order are stated against
`country_stats_nd`, which ranges over every admissible outcome. -/
def country_stats (view : List Row) : List (String × Rat × Nat) :=
  ((country_agg view).insertionSort (measureDesc (fun p => p.2.1))).take 10

/-- Admissible results of line 200 under the `sort_values` contract: the
first 10 rows of some admissible sort of the grouped country table. -/
def country_stats_nd (view : List Row) (out : List (String × Rat × Nat)) : Prop :=
  ∃ sorted, sort_values_nd (fun p => p.2.1) (country_agg view) sorted ∧ out = sorted.take 10

/-- Admissible results of line 220: the first 5 rows of an admissible
country table. -/
def top5_nd (view : List Row) (out : List (String × Rat × Nat)) : Prop :=
  ∃ cs, country_stats_nd view cs ∧ out = cs.take 5

/-- `top5` (line 220): the first 5 rows of `country_stats`. -/
def top5 (view : List Row) : List (String × Rat × Nat) :=
  (country_stats view).take 5

/-- `top_products_qty` (lines 240-241): quantity by Description, sorted
descending, first 10 rows (one admissible `sort_values_nd` outcome; see
`country_stats`). -/
def top_products_qty (view : List Row) : List (String × Int) :=
  ((groupByD Row.description sumQuantity view).insertionSort
    (measureDesc (fun p => p.2))).take 10

/-- Admissible results of lines 240-241 under the `sort_values`
contract. -/
def top_products_qty_nd (view : List Row) (out : List (String × Int)) : Prop :=
  ∃ sorted, sort_values_nd (fun p => p.2) (groupByD Row.description sumQuantity view) sorted ∧
    out = sorted.take 10

/-- `top_products_rev` (lines 264-265): revenue by Description, sorted
descending, first 10 rows (one admissible `sort_values_nd` outcome; see
`country_stats`). -/
def top_products_rev (view : List Row) : List (String × Rat) :=
  ((groupByD Row.description sumTotalPrice view).insertionSort
    (measureDesc (fun p => p.2))).take 10

/-- Admissible results of lines 264-265 under the `sort_values`
contract. -/
def top_products_rev_nd (view : List Row) (out : List (String × Rat)) : Prop :=
  ∃ sorted, sort_values_nd (fun p => p.2) (groupByD Row.description sumTotalPrice view) sorted ∧
    out = sorted.take 10

/-- `hourly` (line 295): distinct invoices by Hour. -/
def hourly (view : List Row) : List (Nat × Nat) :=
  groupBy Row.hourOfDay nuniqueInvoice view

/-- `customer_orders` (line 315): distinct invoices per customer;
`groupby('CustomerID')` drops null customer ids. -/
def customer_orders (view : List Row) : List (Nat × Nat) :=
  groupByD Row.customerID nuniqueInvoice view

/-- `order_distribution` (lines 318-320):
`value_counts().sort_index()` of the per-customer order counts — each
distinct order-count value in ascending order with its frequency — then
restricted to order counts of at most 20. -/
def order_distribution (view : List Row) : List (Nat × Nat) :=
  ((keysAsc ((customer_orders view).map Prod.snd)).map
    (fun c => (c, ((customer_orders view).map Prod.snd).count c))).filter
    (fun p => decide (p.1 ≤ 20))

/-- All tables and KPI scalars the script hands to the rendering layer
for one interaction. -/
structure Dashboard where
  totalRevenue : Rat
  totalOrders : Nat
  totalCustomers : Nat
  avgOrderValue : Rat
  monthlyRevenueT : List (String × Rat)
  monthlyOrdersT : List (String × Nat)
  countryStatsT : List (String × Rat × Nat)
  top5T : List (String × Rat × Nat)
  topProductsQtyT : List (String × Int)
  topProductsRevT : List (String × Rat)
  hourlyT : List (Nat × Nat)
  orderDistributionT : List (Nat × Nat)
deriving DecidableEq

/-- Build every KPI and aggregate table from the filtered view. -/
def mkDashboard (view : List Row) : Dashboard :=
  { totalRevenue := total_revenue view
    totalOrders := total_orders view
    totalCustomers := total_customers view
    avgOrderValue := avg_order_value view
    monthlyRevenueT := monthly_revenue view
    monthlyOrdersT := monthly_orders view
    countryStatsT := country_stats view
    top5T := top5 view
    topProductsQtyT := top_products_qty view
    topProductsRevT := top_products_rev view
    hourlyT := hourly view
    orderDistributionT := order_distribution view }

/-- Outcome of one script run: a fatal load failure (lines 58-61), the
explicit no-data stop (lines 116-118), or a rendered dashboard.  The
successful outcomes carry the cleaned dataset in use. -/
inductive Outcome where
  | loadFailed : LoadError → Outcome
  | noData : List Row → Outcome
  | rendered : List Row → Dashboard → Outcome
deriving DecidableEq

/-- The cleaned dataset held by the session after the run, if any. -/
def Outcome.dataset : Outcome → Option (List Row)
  | .loadFailed _ => none
  | .noData df => some df
  | .rendered df _ => some df

/-- The script, end to end: load (fatal on error), filter, stop with the
no-data warning when the view is empty, otherwise compute the
dashboard. -/
def runScript (fs : FS) (sel : Selection) : Outcome :=
  match load_data fs with
  | .error e => .loadFailed e
  | .ok df =>
    let view := filtered_df sel df
    if view.length = 0 then .noData df else .rendered df (mkDashboard view)

/-- Specification-side date predicate, from the spec's words: a
two-element interval keeps rows with `start <= Date <= end`; any other
widget value imposes no restriction. -/
def passesDate (dr : List Nat) (r : Row) : Prop :=
  match dr with
  | [s, e] => s ≤ r.date ∧ r.date ≤ e
  | _ => True

instance (dr : List Nat) (r : Row) : Decidable (passesDate dr r) :=
  match dr with
  | [s, e] => inferInstanceAs (Decidable (s ≤ r.date ∧ r.date ≤ e))
  | [] => .isTrue trivial
  | [_] => .isTrue trivial
  | _ :: _ :: _ :: _ => .isTrue trivial

/-- Specification-side country predicate: an empty selection imposes no
restriction, otherwise the row's country must be selected. -/
def passesCountry (cs : List String) (r : Row) : Prop :=
  cs = [] ∨ r.country ∈ cs

instance (cs : List String) (r : Row) : Decidable (passesCountry cs r) :=
  inferInstanceAs (Decidable (cs = [] ∨ r.country ∈ cs))

/-- Specification-side row predicate of one filter selection: the date
and country predicates composed with logical AND. -/
def passes (sel : Selection) (r : Row) : Prop :=
  passesDate sel.dateRange r ∧ passesCountry sel.countries r

instance (sel : Selection) (r : Row) : Decidable (passes sel r) :=
  inferInstanceAs (Decidable (passesDate sel.dateRange r ∧ passesCountry sel.countries r))

/-- Descending-by-measure order with ties in ascending key order: the row
order asserted for the top-N tables. -/
def lexDesc {α M K : Type} [LT M] [LE M] [LE K] (m : α → M) (k : α → K) (a b : α) : Prop :=
  m b < m a ∨ (m a = m b ∧ k a ≤ k b)

/-- Sample timestamp: 2011-01-05, 10am. -/
def ts1 : Timestamp := ⟨2011, 1, 5, 10⟩

/-- Sample timestamp: 2011-02-01, 14pm. -/
def ts2 : Timestamp := ⟨2011, 2, 1, 14⟩

/-- Sample raw record: a valid UK line item. -/
def raw1 : RawRow :=
  { invoiceNo := "536365"
    stockCode := "85123A"
    description := some ("WHITE HANGING HEART")
    quantity := 5
    unitPrice := 2
    invoiceDate := some ts1
    customerID := some 17850
    country := "United Kingdom" }

/-- Sample raw record: a return (negative quantity), dropped by
cleaning. -/
def raw2 : RawRow :=
  { invoiceNo := "C536379"
    stockCode := "D"
    description := some ("DISCOUNT")
    quantity := -1
    unitPrice := 3
    invoiceDate := some ts1
    customerID := some 14527
    country := "United Kingdom" }

/-- Sample raw record: a valid French line item. -/
def raw3 : RawRow :=
  { invoiceNo := "536370"
    stockCode := "22728"
    description := some ("ALARM CLOCK BAKELIKE")
    quantity := 2
    unitPrice := 4
    invoiceDate := some ts2
    customerID := none
    country := "France" }

/-- Sample file system: the primary candidate path holds the three
sample records, the fallback path is absent. -/
def fsGood : FS := fun p => if p = dataCsv then .good [raw1, raw2, raw3] else .missing

/-- Sample file system: the primary path is unreadable and the fallback
path is absent. -/
def fsBoth : FS := fun p => if p = dataCsv then .bad else .missing

/-- Sample selection: full date range of the sample data, UK only. -/
def selUK : Selection := ⟨[20110101, 20111231], ["United Kingdom"]⟩

/-- Sample selection: a country matching no sample row. -/
def selNone : Selection := ⟨[], ["Japan"]⟩

/-- The cleaned sample dataset: cleaning drops the return row. -/
def cleanedSample : List Row := [mkRow raw1 ts1, mkRow raw3 ts2]

/-- A French line item with revenue 10, for the tied-revenue view. -/
def rowF : Row :=
  { invoiceNo := "1"
    stockCode := "A"
    description := some ("P1")
    quantity := 1
    unitPrice := 10
    invoiceDate := ts1
    customerID := some 1
    country := "France"
    totalPrice := 10
    yearMonth := "2011-01"
    date := 20110105
    hourOfDay := 10 }

/-- A German line item with the same revenue 10. -/
def rowG : Row :=
  { invoiceNo := "2"
    stockCode := "B"
    description := some ("P2")
    quantity := 1
    unitPrice := 10
    invoiceDate := ts1
    customerID := some 2
    country := "Germany"
    totalPrice := 10
    yearMonth := "2011-01"
    date := 20110105
    hourOfDay := 10 }

/-- A view in which France and Germany are tied in revenue. -/
def viewCE : List Row := [rowF, rowG]

/-! ### Shared lemmas about the group-by and sorting building blocks -/

theorem mem_keysAsc {K : Type} [LinearOrder K] [DecidableEq K] {a : K} {l : List K} :
    a ∈ keysAsc l ↔ a ∈ l := by
  simp [keysAsc]

theorem keysAsc_sorted {K : Type} [LinearOrder K] [DecidableEq K] (l : List K) :
    (keysAsc l).Sorted (fun a b => a ≤ b) :=
  List.sorted_insertionSort _ _

theorem keysAsc_nodup {K : Type} [LinearOrder K] [DecidableEq K] (l : List K) : (keysAsc l).Nodup :=
  ((List.perm_insertionSort _ l.dedup).nodup_iff).mpr l.nodup_dedup

theorem keysAsc_pairwise_lt {K : Type} [LinearOrder K] [DecidableEq K] (l : List K) :
    (keysAsc l).Pairwise (fun a b => a < b) :=
  (keysAsc_sorted l).lt_of_le (keysAsc_nodup l)

theorem groupByD_pairwise_keys {K β : Type} [LinearOrder K] [DecidableEq K] (key : Row → Option K)
    (agg : List Row → β) (df : List Row) :
    (groupByD key agg df).Pairwise (fun p q => p.1 < q.1) :=
  List.pairwise_map.mpr (keysAsc_pairwise_lt _)

theorem groupByD_keys_nodup {K β : Type} [LinearOrder K] [DecidableEq K] (key : Row → Option K)
    (agg : List Row → β) (df : List Row) :
    ((groupByD key agg df).map Prod.fst).Nodup := by
  have h : (groupByD key agg df).map Prod.fst = keysAsc (df.filterMap key) := by
    simp [groupByD, List.map_map, Function.comp_def]
  rw [h]
  exact keysAsc_nodup _

theorem mem_groupByD {K β : Type} [LinearOrder K] [DecidableEq K] {key : Row → Option K}
    {agg : List Row → β} {df : List Row} {k : K} {b : β} :
    (k, b) ∈ groupByD key agg df ↔
      (∃ r ∈ df, key r = some k) ∧
        b = agg (df.filter fun r => decide (key r = some k)) := by
  constructor
  · intro h
    rcases List.mem_map.mp h with ⟨a, ha, hab⟩
    rcases Prod.mk.injEq .. ▸ hab with ⟨rfl, rfl⟩
    exact ⟨by simpa [mem_keysAsc, List.mem_filterMap] using ha, rfl⟩
  · rintro ⟨hr, rfl⟩
    exact List.mem_map.mpr ⟨k, by simpa [mem_keysAsc, List.mem_filterMap] using hr, rfl⟩

theorem groupBy_keys_nodup {K β : Type} [LinearOrder K] [DecidableEq K] (key : Row → K)
    (agg : List Row → β) (df : List Row) :
    ((groupBy key agg df).map Prod.fst).Nodup :=
  groupByD_keys_nodup _ _ _

theorem sort_values_nd_take {α M : Type} [Preorder M] {m : α → M} {l sorted : List α}
    (h : sort_values_nd m l sorted) (n : Nat) :
    (sorted.take n).length ≤ n ∧ (sorted.take n).Pairwise (fun a b => m b ≤ m a) :=
  ⟨List.length_take_le .., h.2.sublist (List.take_sublist ..)⟩

/-! ### Lemmas about the filter stage -/

theorem dateFilter_eq (dr : List Nat) (df : List Row) :
    dateFilter dr df = df.filter (fun r => decide (passesDate dr r)) := by
  match dr with
  | [] => simp [dateFilter, passesDate]
  | [s] => simp [dateFilter, passesDate]
  | [s, e] => simp [dateFilter, passesDate]
  | s :: e :: x :: t => simp [dateFilter, passesDate]

theorem countryFilter_eq (cs : List String) (df : List Row) :
    countryFilter cs df = df.filter (fun r => decide (passesCountry cs r)) := by
  match cs with
  | [] => simp [countryFilter, passesCountry]
  | c :: t =>
    rw [countryFilter]
    refine List.filter_congr ?_
    intro r _
    simp [passesCountry]
    exact List.cons_ne_nil c t

theorem filtered_df_eq_filter (sel : Selection) (df : List Row) :
    filtered_df sel df = df.filter (fun r => decide (passes sel r)) := by
  rw [filtered_df, copy, dateFilter_eq, countryFilter_eq, List.filter_filter]
  refine List.filter_congr ?_
  intro r _
  simp [passes, and_comm]

theorem mem_filtered_df {sel : Selection} {df : List Row} {r : Row} :
    r ∈ filtered_df sel df ↔ r ∈ df ∧ passes sel r := by
  rw [filtered_df_eq_filter]
  simp [List.mem_filter]

theorem filtered_df_sublist (sel : Selection) (df : List Row) :
    List.Sublist (filtered_df sel df) df := by
  rw [filtered_df_eq_filter]
  exact List.filter_sublist df

/-! ### Lemmas about loading and cleaning -/

theorem clean_invariants {prs : List (RawRow × Timestamp)} {r : Row} (h : r ∈ clean prs) :
    0 < r.quantity ∧ 0 < r.unitPrice ∧ r.description.isSome ∧
      r.totalPrice = (r.quantity : Rat) * r.unitPrice := by
  rcases List.mem_map.mp h with ⟨p, hp, rfl⟩
  have h3 := List.mem_filter.mp hp
  have h2 := List.mem_filter.mp h3.1
  have h1 := List.mem_filter.mp h2.1
  refine ⟨?_, ?_, ?_, rfl⟩
  · simpa [mkRow] using of_decide_eq_true h1.2
  · simpa [mkRow] using of_decide_eq_true h2.2
  · simpa [mkRow] using h3.2

theorem load_data_ok {fs : FS} {df : List Row} (h : load_data fs = .ok df) :
    ∃ prs, df = clean prs := by
  rw [load_data] at h
  rcases hr : read_csv fs dataCsv with e | rows
  · rw [hr] at h
    rcases hr2 : read_csv fs retailCsv with e2 | rows2
    · rw [hr2] at h
      exact absurd h (by simp)
    · rw [hr2] at h
      unfold parse_clean at h
      rcases hp : parseAll rows2 with _ | prs
      · simp [hp] at h
      · simp [hp] at h
        exact ⟨prs, h.symm⟩
  · rw [hr] at h
    unfold parse_clean at h
    rcases hp : parseAll rows with _ | prs
    · simp [hp] at h
    · simp [hp] at h
      exact ⟨prs, h.symm⟩

theorem dateFilter_malformed (dr : List Nat) (df : List Row) (h : dr.length ≠ 2) :
    dateFilter dr df = df := by
  match dr with
  | [] => rfl
  | [s] => rfl
  | [s, e] => exact absurd rfl h
  | s :: e :: x :: t => rfl

theorem countryFilter_empty (df : List Row) : countryFilter [] df = df := rfl

/-! ### Claim theorems -/

/-- C1: every row of the dataset returned by `load_data` has
`Quantity > 0`, `UnitPrice > 0`, a non-null `Description`, and
`TotalPrice = Quantity * UnitPrice`; and the rows of any downstream
filtered view are rows of that dataset, so `TotalPrice` still equals the
product there — it is never recomputed or mutated downstream. -/
theorem c1_cleaned_dataset_invariants (fs : FS) (df : List Row) (sel : Selection)
    (h : load_data fs = .ok df) :
    (∀ r ∈ df, 0 < r.quantity ∧ 0 < r.unitPrice ∧ r.description.isSome ∧
        r.totalPrice = (r.quantity : Rat) * r.unitPrice) ∧
    (∀ r ∈ filtered_df sel df, r.totalPrice = (r.quantity : Rat) * r.unitPrice) := by
  rcases load_data_ok h with ⟨prs, rfl⟩
  exact ⟨fun r hr => clean_invariants hr,
    fun r hr => (clean_invariants (mem_filtered_df.mp hr).1).2.2.2⟩

/-- Witness for C1 at the sample file system: the surviving sample row
satisfies all four invariants. -/
theorem c1_witness :
    0 < (mkRow raw1 ts1).quantity ∧ 0 < (mkRow raw1 ts1).unitPrice ∧
      (mkRow raw1 ts1).description.isSome ∧
      (mkRow raw1 ts1).totalPrice = ((mkRow raw1 ts1).quantity : Rat) * (mkRow raw1 ts1).unitPrice :=
  (c1_cleaned_dataset_invariants fsGood cleanedSample selUK (by rfl)).1
    (mkRow raw1 ts1) (by simp [cleanedSample])

/-- C2: a row is kept by `filtered_df` iff it is in the dataset, its date
lies in the closed interval when the widget value is a two-element pair,
and its country is selected when the selection is non-empty; a malformed
interval and an empty country selection impose no restriction (and the
filter is a total function, so nothing is raised). -/
theorem c2_filter_semantics (sel : Selection) (df : List Row) :
    filtered_df sel df = df.filter (fun r => decide (passes sel r)) ∧
    (∀ r, r ∈ filtered_df sel df ↔
      r ∈ df ∧ passesDate sel.dateRange r ∧ (sel.countries = [] ∨ r.country ∈ sel.countries)) ∧
    (sel.dateRange.length ≠ 2 → dateFilter sel.dateRange df = df) ∧
    countryFilter [] df = df :=
  ⟨filtered_df_eq_filter sel df, fun _ => mem_filtered_df,
    dateFilter_malformed sel.dateRange df, countryFilter_empty df⟩

/-- Witness for C2: the filter equation at a concrete selection, the
membership characterisation at a concrete row, and the no-restriction
behaviour of a one-element interval. -/
theorem c2_witness :
    filtered_df selUK cleanedSample =
      cleanedSample.filter (fun r => decide (passes selUK r)) ∧
    (mkRow raw1 ts1 ∈ filtered_df selUK cleanedSample ↔
      mkRow raw1 ts1 ∈ cleanedSample ∧ passesDate selUK.dateRange (mkRow raw1 ts1) ∧
        (selUK.countries = [] ∨ (mkRow raw1 ts1).country ∈ selUK.countries)) ∧
    dateFilter [20110101] cleanedSample = cleanedSample :=
  ⟨(c2_filter_semantics selUK cleanedSample).1,
    (c2_filter_semantics selUK cleanedSample).2.1 (mkRow raw1 ts1),
    (c2_filter_semantics ⟨[20110101], []⟩ cleanedSample).2.2.1 (by decide)⟩

/-- C7: filtering twice is filtering once by the conjunction of the two
row predicates; `filtered_df` is a pure function of its arguments, so
filtering has no side effects. -/
theorem c7_filter_composition (s1 s2 : Selection) (df : List Row) :
    filtered_df s2 (filtered_df s1 df) =
      df.filter (fun r => decide (passes s1 r) && decide (passes s2 r)) ∧
    ∀ r, r ∈ filtered_df s2 (filtered_df s1 df) ↔ r ∈ df ∧ passes s1 r ∧ passes s2 r := by
  constructor
  · rw [filtered_df_eq_filter, filtered_df_eq_filter, List.filter_filter]
    refine List.filter_congr ?_
    intro r _
    exact Bool.and_comm ..
  · intro r
    rw [mem_filtered_df, mem_filtered_df]
    tauto

/-- Witness for C7 at concrete selections over the sample dataset. -/
theorem c7_witness :
    filtered_df selNone (filtered_df selUK cleanedSample) =
      cleanedSample.filter (fun r => decide (passes selUK r) && decide (passes selNone r)) :=
  (c7_filter_composition selUK selNone cleanedSample).1

/-- C9: the filtered view is a sublist of the cleaned dataset — the rows
it holds are the original rows, obtained by filtering a copy — and after
the whole script run the session's dataset is exactly the dataset that
`load_data` produced, unmodified. -/
theorem c9_filter_does_not_mutate (sel : Selection) (df : List Row) (fs : FS)
    (h : load_data fs = .ok df) :
    List.Sublist (filtered_df sel df) df ∧ (runScript fs sel).dataset = some df := by
  refine ⟨filtered_df_sublist sel df, ?_⟩
  unfold runScript
  rw [h]
  show (if (filtered_df sel df).length = 0 then Outcome.noData df
      else Outcome.rendered df (mkDashboard (filtered_df sel df))).dataset = some df
  split
  · rfl
  · rfl

/-- Witness for C9 on the sample file system and a concrete selection. -/
theorem c9_witness :
    List.Sublist (filtered_df selUK cleanedSample) cleanedSample ∧
      (runScript fsGood selUK).dataset = some cleanedSample :=
  c9_filter_does_not_mutate selUK cleanedSample fsGood (by rfl)

/-- C3: on an empty view every one of the eight aggregates yields an
empty table, the average-order-value KPI is 0 whenever the distinct-order
count is 0 (no division error: the functions are total), and the script
surfaces an empty filtered view as the distinct no-data outcome. -/
theorem c3_empty_view_safety :
    (monthly_revenue [] = [] ∧ monthly_orders [] = [] ∧ country_stats [] = [] ∧
      top5 [] = [] ∧ top_products_qty [] = [] ∧ top_products_rev [] = [] ∧
      hourly [] = [] ∧ order_distribution [] = []) ∧
    avg_order_value [] = 0 ∧
    (∀ view : List Row, total_orders view = 0 → avg_order_value view = 0) ∧
    (∀ fs sel df, load_data fs = .ok df → filtered_df sel df = [] →
      runScript fs sel = .noData df) := by
  refine ⟨⟨rfl, rfl, rfl, rfl, rfl, rfl, rfl, rfl⟩, rfl, ?_, ?_⟩
  · intro v h
    rw [avg_order_value, h]
    simp
  · intro fs sel df h hv
    unfold runScript
    rw [h]
    show (if (filtered_df sel df).length = 0 then Outcome.noData df
        else Outcome.rendered df (mkDashboard (filtered_df sel df))) = Outcome.noData df
    rw [hv]
    rfl

/-- Witness for C3: a selection matching no sample row makes the script
stop in the no-data state. -/
theorem c3_witness : runScript fsGood selNone = .noData cleanedSample :=
  c3_empty_view_safety.2.2.2 fsGood selNone cleanedSample (by rfl) (by rfl)

/-- C5: the KPI scalars are the sum of `TotalPrice` over the view, the
number of distinct invoice numbers, the number of distinct non-null
customer ids, and revenue divided by orders with value 0 when there are
no orders. -/
theorem c5_kpi_scalars (view : List Row) :
    total_revenue view = (view.map Row.totalPrice).sum ∧
    total_orders view = (view.map Row.invoiceNo).toFinset.card ∧
    total_customers view = (view.filterMap Row.customerID).toFinset.card ∧
    (total_orders view = 0 → avg_order_value view = 0) ∧
    (0 < total_orders view →
      avg_order_value view = total_revenue view / (total_orders view : Rat)) := by
  refine ⟨rfl, ?_, ?_, ?_, ?_⟩
  · rw [total_orders, List.card_toFinset]
  · rw [total_customers, List.card_toFinset]
  · intro h
    rw [avg_order_value, h]
    simp
  · intro h
    rw [avg_order_value, if_pos h]

/-- Witness for C5: on the sample view the average order value is the
revenue-per-order quotient. -/
theorem c5_witness :
    avg_order_value cleanedSample = total_revenue cleanedSample / (total_orders cleanedSample : Rat) :=
  (c5_kpi_scalars cleanedSample).2.2.2.2 (by decide)

/-- C6: `load_data` uses the first candidate path when it reads
successfully, falls back to the second on any failure of the first read,
reports a not-found or malformed error from the exhausted fallback —
the two kinds stay distinguished — and a load error makes the whole run
fatal, carrying no dataset. -/
theorem c6_load_fallback (fs : FS) (sel : Selection) :
    (∀ rows, fs dataCsv = .good rows → load_data fs = parse_clean rows) ∧
    (∀ rows, (fs dataCsv = .missing ∨ fs dataCsv = .bad) → fs retailCsv = .good rows →
      load_data fs = parse_clean rows) ∧
    ((fs dataCsv = .missing ∨ fs dataCsv = .bad) → fs retailCsv = .missing →
      load_data fs = .error .notFound) ∧
    ((fs dataCsv = .missing ∨ fs dataCsv = .bad) → fs retailCsv = .bad →
      load_data fs = .error .malformed) ∧
    (∀ e, load_data fs = .error e → runScript fs sel = .loadFailed e) := by
  refine ⟨?_, ?_, ?_, ?_, ?_⟩
  · intro rows h
    unfold load_data read_csv
    rw [h]
  · intro rows h1 h2
    unfold load_data read_csv
    rcases h1 with h1 | h1 <;> rw [h1, h2]
  · intro h1 h2
    unfold load_data read_csv
    rcases h1 with h1 | h1 <;> rw [h1, h2]
  · intro h1 h2
    unfold load_data read_csv
    rcases h1 with h1 | h1 <;> rw [h1, h2]
  · intro e h
    unfold runScript
    rw [h]

/-- Witness for C6: with the first path malformed and the fallback
absent, the load error is the not-found kind and the run halts with it. -/
theorem c6_witness :
    load_data fsBoth = .error .notFound ∧
      runScript fsBoth selUK = .loadFailed .notFound :=
  ⟨(c6_load_fallback fsBoth selUK).2.2.1 (Or.inr (by rfl)) (by rfl),
    (c6_load_fallback fsBoth selUK).2.2.2.2 .notFound
      ((c6_load_fallback fsBoth selUK).2.2.1 (Or.inr (by rfl)) (by rfl))⟩

/-- C4 counterexample: on a view where France and Germany are tied in
revenue, the `sort_values` contract admits the country table in
descending key order, and that admissible program output is not ordered
with ties broken by the original (ascending) group key ordering — so
the claimed tie order is not guaranteed by the program. -/
theorem c4_counterexample :
    country_stats_nd viewCE ((country_agg viewCE).reverse) ∧
      ¬ ((country_agg viewCE).reverse).Pairwise
          (lexDesc (fun p => p.2.1) Prod.fst) := by
  have hFG : ("France" : String) ≤ "Germany" := by
    rw [String.le_iff_toList_le]
    decide
  have hGF : ¬ (("Germany" : String) ≤ "France") := by
    rw [String.le_iff_toList_le]
    decide
  have hkeys : keysAsc (viewCE.filterMap fun r => some (Row.country r)) = ["France", "Germany"] := by
    have hfm : viewCE.filterMap (fun r => some (Row.country r)) = ["France", "Germany"] := rfl
    have hd : (["France", "Germany"] : List String).dedup = ["France", "Germany"] := by decide
    rw [keysAsc, hfm, hd]
    simp only [List.insertionSort, List.orderedInsert]
    rw [if_pos hFG]
  have hA : country_agg viewCE =
      [("France", sumTotalPrice [rowF], 1), ("Germany", sumTotalPrice [rowG], 1)] := by
    unfold country_agg groupBy groupByD
    rw [hkeys]
    rfl
  have hrev : (country_agg viewCE).reverse =
      [("Germany", sumTotalPrice [rowG], 1), ("France", sumTotalPrice [rowF], 1)] := by
    rw [hA]
    rfl
  have hm : sumTotalPrice [rowG] = sumTotalPrice [rowF] := rfl
  constructor
  · refine ⟨(country_agg viewCE).reverse, ⟨List.reverse_perm _, ?_⟩, ?_⟩
    · rw [hrev]
      refine List.pairwise_cons.mpr ⟨?_, List.pairwise_singleton _ _⟩
      intro y hy
      rcases List.mem_singleton.mp hy with rfl
      exact le_of_eq hm.symm
    · rw [hrev]
      rfl
  · rw [hrev]
    intro h
    have h1 := (List.pairwise_cons.mp h).1 _ (List.mem_singleton_self _)
    rcases h1 with hlt | hand
    · rw [hm] at hlt
      exact lt_irrefl _ hlt
    · exact absurd hand.2 hGF

/-- C4 amended: each top-N table has at most N rows and is non-increasing
in its measure — for every output the program's sort contract admits;
the tie order among equal measures is unspecified.  The file's
executable tables are admissible outputs of that contract. -/
theorem c4_topN_tables (view : List Row) :
    (∀ out, country_stats_nd view out →
      out.length ≤ 10 ∧ out.Pairwise (fun a b => b.2.1 ≤ a.2.1)) ∧
    (∀ out, top5_nd view out →
      out.length ≤ 5 ∧ out.Pairwise (fun a b => b.2.1 ≤ a.2.1)) ∧
    (∀ out, top_products_qty_nd view out →
      out.length ≤ 10 ∧ out.Pairwise (fun a b => b.2 ≤ a.2)) ∧
    (∀ out, top_products_rev_nd view out →
      out.length ≤ 10 ∧ out.Pairwise (fun a b => b.2 ≤ a.2)) ∧
    country_stats_nd view (country_stats view) ∧
    top5_nd view (top5 view) ∧
    top_products_qty_nd view (top_products_qty view) ∧
    top_products_rev_nd view (top_products_rev view) := by
  refine ⟨?_, ?_, ?_, ?_, ?_, ?_, ?_, ?_⟩
  · rintro out ⟨sorted, hs, rfl⟩
    exact sort_values_nd_take hs 10
  · rintro out ⟨cs, ⟨sorted, hs, rfl⟩, rfl⟩
    exact ⟨List.length_take_le ..,
      ((sort_values_nd_take hs 10).2).sublist (List.take_sublist ..)⟩
  · rintro out ⟨sorted, hs, rfl⟩
    exact sort_values_nd_take hs 10
  · rintro out ⟨sorted, hs, rfl⟩
    exact sort_values_nd_take hs 10
  · refine ⟨(country_agg view).insertionSort (measureDesc fun p => p.2.1), ⟨?_, ?_⟩, rfl⟩
    · exact List.perm_insertionSort _ _
    · exact List.sorted_insertionSort (measureDesc fun p => p.2.1) (country_agg view)
  · refine ⟨country_stats view,
      ⟨(country_agg view).insertionSort (measureDesc fun p => p.2.1), ⟨?_, ?_⟩, rfl⟩, rfl⟩
    · exact List.perm_insertionSort _ _
    · exact List.sorted_insertionSort (measureDesc fun p => p.2.1) (country_agg view)
  · refine ⟨(groupByD Row.description sumQuantity view).insertionSort
        (measureDesc fun p => p.2), ⟨?_, ?_⟩, rfl⟩
    · exact List.perm_insertionSort _ _
    · exact List.sorted_insertionSort (measureDesc fun p => p.2)
        (groupByD Row.description sumQuantity view)
  · refine ⟨(groupByD Row.description sumTotalPrice view).insertionSort
        (measureDesc fun p => p.2), ⟨?_, ?_⟩, rfl⟩
    · exact List.perm_insertionSort _ _
    · exact List.sorted_insertionSort (measureDesc fun p => p.2)
        (groupByD Row.description sumTotalPrice view)

/-- Witness for C4: the sample view's country table, an admissible sort
outcome, has at most 10 rows and is non-increasing in revenue. -/
theorem c4_witness :
    (country_stats cleanedSample).length ≤ 10 ∧
      (country_stats cleanedSample).Pairwise (fun a b => b.2.1 ≤ a.2.1) :=
  (c4_topN_tables cleanedSample).1 (country_stats cleanedSample)
    ((c4_topN_tables cleanedSample).2.2.2.2.1)

/-- C8: `customer_orders` lists exactly the non-null customer ids of the
view, each with its distinct-invoice order count; `order_distribution`
is ascending in the order-count value, each entry carries the frequency
of that order count among customers, entries with order count above 20
are excluded, and every attained order count of at most 20 appears. -/
theorem c8_order_distribution_semantics (view : List Row) :
    (∀ c n, (c, n) ∈ customer_orders view ↔
      (∃ r ∈ view, r.customerID = some c) ∧
        n = ((view.filter fun r => decide (r.customerID = some c)).map Row.invoiceNo).toFinset.card) ∧
    (order_distribution view).Pairwise (fun p q => p.1 < q.1) ∧
    (∀ p ∈ order_distribution view, p.1 ≤ 20 ∧
      p.2 = ((customer_orders view).map Prod.snd).count p.1) ∧
    (∀ c, c ≤ 20 → (∃ q ∈ customer_orders view, q.2 = c) →
      (c, ((customer_orders view).map Prod.snd).count c) ∈ order_distribution view) := by
  refine ⟨?_, ?_, ?_, ?_⟩
  · intro c n
    simp [customer_orders, mem_groupByD, nuniqueInvoice, List.card_toFinset]
  · have h1 : ((keysAsc ((customer_orders view).map Prod.snd)).map
        (fun c => (c, ((customer_orders view).map Prod.snd).count c))).Pairwise
          (fun p q => p.1 < q.1) :=
      List.pairwise_map.mpr (keysAsc_pairwise_lt _)
    exact h1.sublist (List.filter_sublist _)
  · intro p hp
    have h := List.mem_filter.mp hp
    refine ⟨of_decide_eq_true h.2, ?_⟩
    rcases List.mem_map.mp h.1 with ⟨c, _, rfl⟩
    rfl
  · intro c hc hq
    rcases hq with ⟨q, hq, hqc⟩
    refine List.mem_filter.mpr ⟨?_, decide_eq_true hc⟩
    refine List.mem_map.mpr ⟨c, ?_, rfl⟩
    exact mem_keysAsc.mpr (List.mem_map.mpr ⟨q, hq, hqc⟩)

/-- Witness for C8: the single sample customer places one order, giving
the distribution entry for order count 1. -/
theorem c8_witness :
    (1, 1).1 ≤ 20 ∧
      (1, 1).2 = ((customer_orders cleanedSample).map Prod.snd).count (1, 1).1 :=
  (c8_order_distribution_semantics cleanedSample).2.2.1 (1, 1) (by decide)

theorem take_sort_keys_nodup {α β : Type} (f : α → β) (r : α → α → Prop) [DecidableRel r]
    (l : List α) (n : Nat) (h : (l.map f).Nodup) :
    (((l.insertionSort r).take n).map f).Nodup := by
  have hp : ((l.insertionSort r).map f).Nodup :=
    (((List.perm_insertionSort r l).map f).nodup_iff).mpr h
  exact hp.sublist ((List.take_sublist n _).map f)

/-- C10: every aggregate table has at most one row per group key, and
the monthly and hourly tables are in ascending key order. -/
theorem c10_group_keys_unique (view : List Row) :
    (monthly_revenue view).Pairwise (fun p q => p.1 < q.1) ∧
    (monthly_orders view).Pairwise (fun p q => p.1 < q.1) ∧
    (hourly view).Pairwise (fun p q => p.1 < q.1) ∧
    ((monthly_revenue view).map Prod.fst).Nodup ∧
    ((monthly_orders view).map Prod.fst).Nodup ∧
    ((hourly view).map Prod.fst).Nodup ∧
    ((country_stats view).map Prod.fst).Nodup ∧
    ((top_products_qty view).map Prod.fst).Nodup ∧
    ((top_products_rev view).map Prod.fst).Nodup :=
  ⟨groupByD_pairwise_keys _ _ _, groupByD_pairwise_keys _ _ _, groupByD_pairwise_keys _ _ _,
    groupByD_keys_nodup _ _ _, groupByD_keys_nodup _ _ _, groupByD_keys_nodup _ _ _,
    take_sort_keys_nodup _ _ _ _ (groupBy_keys_nodup Row.country _ view),
    take_sort_keys_nodup _ _ _ _ (groupByD_keys_nodup _ _ _),
    take_sort_keys_nodup _ _ _ _ (groupByD_keys_nodup _ _ _)⟩

/-- Witness for C10 at the sample view. -/
theorem c10_witness :
    ((country_stats cleanedSample).map Prod.fst).Nodup :=
  (c10_group_keys_unique cleanedSample).2.2.2.2.2.2.1

end Retail
